import Mathlib

/-!
Verification development for `src/backend/src/scripts/analyzeRepository.py`
(GH_Gold_Mine repository analysis tool).

The Python script is shallowly embedded: every analyzer method of
`RepositoryAnalyzer` becomes a total Lean function over an explicit
environment record describing the workspace contents and the outcomes of
the external tool invocations (subprocess results, raised exceptions,
filesystem facts).  Python `int` scores are modelled as `Int`, Python float
division (`/`) as division in `ℚ`.  Python's `x in s` substring test is
modelled by `containsSub`, `s.lower()` by `strLower` (ASCII lowering via
`Char.toLower`, matching the ASCII fragment Python's `str.lower` agrees
on), and the truthiness of `line.strip()` by `stripNonempty`.
-/

namespace AnalyzeRepository

/-- Auxiliary for `containsSub`: does `pat` occur as a contiguous sublist of
`s`?  Matches Python's `pat in s` substring semantics (the empty pattern
occurs in every string). -/
def charsHaveSub (s pat : List Char) : Bool :=
  match s with
  | [] => pat.isEmpty
  | _ :: cs => pat.isPrefixOf s || charsHaveSub cs pat

/-- Python's substring containment `pat in s`. -/
def containsSub (s pat : String) : Bool :=
  charsHaveSub s.toList pat.toList

/-- Python's `s.lower()`, restricted to the ASCII fragment the script's
keyword checks use. -/
def strLower (s : String) : String :=
  String.mk (s.toList.map Char.toLower)

/-- Truthiness of Python's `line.strip()`: the stripped line is nonempty
exactly when the line holds some non-whitespace character. -/
def stripNonempty (s : String) : Bool :=
  s.toList.any (fun c => !c.isWhitespace)

/- ----------------------------------------------------------------------
flake8 analysis (`RepositoryAnalyzer.run_flake8_analysis`, lines 79-135)
---------------------------------------------------------------------- -/

/-- Line 117: a flake8 stderr line is critical when its lowercasing holds
one of the issue-category keys `e9`, `f`, `e112`, `e113`. -/
def flake8_is_critical (line : String) : Bool :=
  ["e9", "f", "e112", "e113"].any (fun issue => containsSub (strLower line) issue)

/-- Lines 110-121: the loop over `result.stderr.strip().split('\n')`.
Each line with nonempty strip counts as one issue; a critical line also
increments the critical counter.  Returns `(issue_count, critical_count)`. -/
def count_flake8_issues (lines : List String) : Nat × Nat :=
  lines.foldl
    (fun acc line =>
      if stripNonempty line then
        (acc.1 + 1, if flake8_is_critical line then acc.2 + 1 else acc.2)
      else acc)
    (0, 0)

/-- Lines 123-126: the flake8 scoring policy.
`base_score = 80`, `penalty = min(50, issue_count*2 + critical_count*5)`,
`score = max(0, base_score - penalty)`. -/
def flake8_policy (issue_count critical_count : Nat) : Int :=
  max 0 (80 - min 50 ((issue_count : Int) * 2 + (critical_count : Int) * 5))

/-- Outcome of the `flake8` subprocess invocation (line 97): clean exit
(returncode 0), nonzero exit with the given stderr lines, a
`subprocess.TimeoutExpired`, or any other exception. -/
inductive Flake8Run where
  | ok
  | issues (stderrLines : List String)
  | timedOut
  | exn (msg : String)
deriving DecidableEq

/-- Workspace/tool facts `run_flake8_analysis` observes: whether
`Path(repo_path).rglob('*.py')` finds any file, and the subprocess
outcome. -/
structure Flake8Env where
  hasPythonFiles : Bool
  run : Flake8Run
deriving DecidableEq

/-- The `results` dict built by `run_flake8_analysis`
(`score`, `issues`, `critical_issues`, and the `details` entries). -/
structure Flake8Result where
  score : Int
  issues : Nat
  critical_issues : Nat
  message : Option String
  timedOut : Bool
  error : Option String
deriving DecidableEq

/-- `RepositoryAnalyzer.run_flake8_analysis` (lines 79-135). -/
def run_flake8_analysis (env : Flake8Env) : Flake8Result :=
  if env.hasPythonFiles = false then
    { score := 0, issues := 0, critical_issues := 0,
      message := some ("No Python files found"), timedOut := false, error := none }
  else
    match env.run with
    | Flake8Run.ok =>
        { score := 90, issues := 0, critical_issues := 0,
          message := none, timedOut := false, error := none }
    | Flake8Run.issues lines =>
        let counts := count_flake8_issues lines
        { score := flake8_policy counts.1 counts.2, issues := counts.1,
          critical_issues := counts.2, message := none, timedOut := false, error := none }
    | Flake8Run.timedOut =>
        { score := 0, issues := 0, critical_issues := 0,
          message := none, timedOut := true, error := none }
    | Flake8Run.exn msg =>
        { score := 0, issues := 0, critical_issues := 0,
          message := none, timedOut := false, error := some msg }

/- ----------------------------------------------------------------------
radon analysis (`RepositoryAnalyzer.run_radon_analysis`, lines 137-204)
---------------------------------------------------------------------- -/

/-- Outcome of the `radon cc --json` subprocess (line 153): an exit with
the given returncode and, when the JSON parsed, the per-file lists of
function complexities (`func_data.get('complexity', 1)` per function);
`parsed = none` models `json.JSONDecodeError`. -/
inductive RadonRun where
  | ran (returncode : Int) (parsed : Option (List (List Nat)))
  | timedOut
  | exn (msg : String)
deriving DecidableEq

/-- Workspace/tool facts `run_radon_analysis` observes. -/
structure RadonEnv where
  hasPythonFiles : Bool
  run : RadonRun
deriving DecidableEq

/-- The `results` dict built by `run_radon_analysis`. -/
structure RadonResult where
  complexity_score : Int
  average_complexity : ℚ
  complex_functions : Nat
  timedOut : Bool
  error : Option String
deriving DecidableEq

/-- Lines 181-188: the complexity banding on the average complexity. -/
def complexity_band (avg_complexity : ℚ) : Int :=
  if avg_complexity ≤ 5 then 90
  else if avg_complexity ≤ 10 then 70
  else if avg_complexity ≤ 20 then 40
  else 20

/-- Python's `round(q, 2)` used on stored averages and the aggregate
score.  Modelled as floor of `q*100 + 1/2` scaled back; Python's
round-half-to-even differs only at exact half-cent values, which no
verified property touches. -/
def round2 (q : ℚ) : ℚ :=
  (((q * 100 + 1/2).floor : Int) : ℚ) / 100

/-- `RepositoryAnalyzer.run_radon_analysis` (lines 137-204). -/
def run_radon_analysis (env : RadonEnv) : RadonResult :=
  let zeros : RadonResult :=
    { complexity_score := 0, average_complexity := 0, complex_functions := 0,
      timedOut := false, error := none }
  if env.hasPythonFiles = false then zeros
  else
    match env.run with
    | RadonRun.ran rc parsed =>
        if rc = 0 then
          match parsed with
          | some files =>
              let funcs := files.foldl (fun acc file => acc ++ file) ([] : List Nat)
              let total_complexity := funcs.sum
              let function_count := funcs.length
              let complex_fn_count := (funcs.filter (fun c => 10 < c)).length
              if 0 < function_count then
                let avg_complexity : ℚ := (total_complexity : ℚ) / (function_count : ℚ)
                { complexity_score := complexity_band avg_complexity,
                  average_complexity := round2 avg_complexity,
                  complex_functions := complex_fn_count,
                  timedOut := false, error := none }
              else zeros
          | none => { zeros with error := some ("Failed to parse radon output") }
        else { zeros with error := some ("Radon analysis failed") }
    | RadonRun.timedOut => { zeros with timedOut := true }
    | RadonRun.exn msg => { zeros with error := some msg }

/- ----------------------------------------------------------------------
ESLint analysis (`RepositoryAnalyzer.run_eslint_analysis`, lines 206-287)
---------------------------------------------------------------------- -/

/-- Lines 260-263: a message is critical when its `ruleId` (lowercased)
holds one of the listed keys. -/
def eslint_is_critical (ruleId : String) : Bool :=
  ["no-unused-vars", "error", "no-unreachable"].any
    (fun check => containsSub (strLower ruleId) check)

/-- Lines 269-271: the ESLint scoring policy.
`base_score = 80`, `penalty = min(60, total_issues*1 + critical_issues*3)`,
`score = max(0, base_score - penalty)`. -/
def eslint_policy (total_issues critical_issues : Nat) : Int :=
  max 0 (80 - min 60 ((total_issues : Int) * 1 + (critical_issues : Int) * 3))

/-- Outcome of the `npx eslint --format=json` subprocess (line 244): exit
with a returncode and, when `result.stdout` parsed as JSON (empty stdout
parses to `[]`), the per-file lists of message `ruleId`s; `parsed = none`
models `json.JSONDecodeError`. -/
inductive EslintRun where
  | ran (returncode : Int) (parsed : Option (List (List String)))
  | timedOut
  | exn (msg : String)
deriving DecidableEq

/-- Workspace/tool facts `run_eslint_analysis` observes: whether any
`*.js`/`*.ts`/`*.jsx`/`*.tsx` file exists, whether one of the ESLint
config files exists, and the subprocess outcome. -/
structure EslintEnv where
  hasSourceFiles : Bool
  hasEslintConfig : Bool
  run : EslintRun
deriving DecidableEq

/-- The `results` dict built by `run_eslint_analysis`. -/
structure EslintResult where
  score : Int
  issues : Nat
  critical_issues : Nat
  message : Option String
  timedOut : Bool
  error : Option String
deriving DecidableEq

/-- `RepositoryAnalyzer.run_eslint_analysis` (lines 206-287). -/
def run_eslint_analysis (env : EslintEnv) : EslintResult :=
  if env.hasSourceFiles = false then
    { score := 0, issues := 0, critical_issues := 0,
      message := some ("No JS/TS files found"), timedOut := false, error := none }
  else if env.hasEslintConfig = false then
    { score := 40, issues := 0, critical_issues := 0,
      message := some ("No ESLint configuration found"), timedOut := false, error := none }
  else
    match env.run with
    | EslintRun.ran rc parsed =>
        if rc = 0 ∨ rc = 1 then
          match parsed with
          | some files =>
              let total_issues := (files.map List.length).sum
              let critical_issues :=
                (files.map (fun msgs => (msgs.filter (fun m => eslint_is_critical m)).length)).sum
              { score := eslint_policy total_issues critical_issues,
                issues := total_issues, critical_issues := critical_issues,
                message := none, timedOut := false, error := none }
          | none =>
              { score := 30, issues := 0, critical_issues := 0, message := none,
                timedOut := false, error := some ("Failed to parse ESLint output") }
        else
          { score := 20, issues := 0, critical_issues := 0, message := none,
            timedOut := false, error := some ("ESLint execution failed") }
    | EslintRun.timedOut =>
        { score := 0, issues := 0, critical_issues := 0,
          message := none, timedOut := true, error := none }
    | EslintRun.exn msg =>
        { score := 0, issues := 0, critical_issues := 0,
          message := none, timedOut := false, error := some msg }

/- ----------------------------------------------------------------------
Documentation analysis (`RepositoryAnalyzer.analyze_documentation`,
lines 289-393)
---------------------------------------------------------------------- -/

/-- The text signals `analyze_documentation` extracts from the README it
found (lines 333-356).  The regex searches of the source (`re.findall`
over the lowercased content for the four section patterns, over the raw
content for fenced code blocks and sentence terminators, `str.split` for
words) are represented by their outputs: `length` is `len(readme_content)`,
each section flag is whether the corresponding heading regex matched,
`codeExamples` counts fenced code blocks, `sentences` counts
`[.!?]+` matches and `words` counts whitespace-separated words. -/
structure ReadmeFeatures where
  length : Nat
  installation : Bool
  usage : Bool
  contributing : Bool
  license : Bool
  codeExamples : Nat
  sentences : Nat
  words : Nat
deriving DecidableEq

/-- What `analyze_documentation` finds in the workspace: no readable
README file, a README with the given extracted features, or an exception
raised inside the `try` block. -/
inductive DocEnv where
  | noReadme
  | readme (f : ReadmeFeatures)
  | exn (msg : String)
deriving DecidableEq

/-- The `results` dict built by `analyze_documentation`. -/
structure DocResult where
  score : Int
  readme_length : Nat
  has_code_examples : Bool
  has_installation : Bool
  has_contributing : Bool
  readability_score : Int
  message : Option String
  error : Option String
deriving DecidableEq

/-- Line 356: `avg_sentence_length = words / max(1, sentences)` (Python
float division, modelled in ℚ). -/
def avg_sentence_length (sentences words : Nat) : ℚ :=
  (words : ℚ) / ((max 1 sentences : Nat) : ℚ)

/-- Lines 358-366: the readability banding (shorter average sentence
length gives a higher readability score). -/
def readability_band (avg : ℚ) : Int :=
  if avg ≤ 15 then 90
  else if avg ≤ 25 then 70
  else if avg ≤ 40 then 50
  else 30

/-- `RepositoryAnalyzer.analyze_documentation` (lines 289-393).  The
`f.length = 0` guard mirrors line 329's `if not readme_content:` — an
empty README string is falsy and takes the no-README path. -/
def analyze_documentation (env : DocEnv) : DocResult :=
  let noReadmeResult : DocResult :=
    { score := 0, readme_length := 0, has_code_examples := false,
      has_installation := false, has_contributing := false,
      readability_score := 0, message := some ("No README file found"), error := none }
  match env with
  | DocEnv.noReadme => noReadmeResult
  | DocEnv.exn msg =>
      { score := 10, readme_length := 0, has_code_examples := false,
        has_installation := false, has_contributing := false,
        readability_score := 0, message := none, error := some msg }
  | DocEnv.readme f =>
      if f.length = 0 then noReadmeResult
      else
        let readability_score := readability_band (avg_sentence_length f.sentences f.words)
        let base_score : Int :=
          40 + (if f.installation then 15 else 0) + (if f.usage then 10 else 0)
            + (if f.contributing then 10 else 0) + (if 0 < f.codeExamples then 15 else 0)
            + (if f.license then 10 else 0)
        let readability_bonus : Int := (readability_score - 50) / 2
        { score := max 0 (min 100 (base_score + readability_bonus)),
          readme_length := f.length,
          has_code_examples := 0 < f.codeExamples,
          has_installation := f.installation,
          has_contributing := f.contributing,
          readability_score := readability_score,
          message := none, error := none }

/- ----------------------------------------------------------------------
Dependency analysis (`RepositoryAnalyzer.analyze_dependencies`,
lines 395-451)
---------------------------------------------------------------------- -/

/-- Filesystem facts `analyze_dependencies` observes: existence of the six
dependency manifests (lines 412-419), of any lock file (lines 427-432),
of any security-scanning config file (line 438-439), plus a possible
exception raised inside the `try` block. -/
structure DepsEnv where
  has_package_json : Bool
  has_requirements_txt : Bool
  has_pipfile : Bool
  has_setup_py : Bool
  has_cargo_toml : Bool
  has_go_mod : Bool
  has_lock_files : Bool
  has_security_config : Bool
  exn : Option String
deriving DecidableEq

/-- The `results` dict built by `analyze_dependencies`. -/
structure DepsResult where
  score : Int
  has_package_json : Bool
  has_requirements_txt : Bool
  has_pipfile : Bool
  has_setup_py : Bool
  has_cargo_toml : Bool
  has_go_mod : Bool
  has_lockfiles : Bool
  has_security_config : Bool
  error : Option String
deriving DecidableEq

/-- `RepositoryAnalyzer.analyze_dependencies` (lines 395-451): 15 points
per dependency manifest, 20 for lock files, 10 for security config; the
exception path resets the score to 0; `min(100, score)` is applied
outside the `try` block in every case (line 449). -/
def analyze_dependencies (env : DepsEnv) : DepsResult :=
  match env.exn with
  | some msg =>
      { score := min 100 0,
        has_package_json := false, has_requirements_txt := false, has_pipfile := false,
        has_setup_py := false, has_cargo_toml := false, has_go_mod := false,
        has_lockfiles := false, has_security_config := false, error := some msg }
  | none =>
      let score0 : Int :=
        (if env.has_package_json then 15 else 0) + (if env.has_requirements_txt then 15 else 0)
          + (if env.has_pipfile then 15 else 0) + (if env.has_setup_py then 15 else 0)
          + (if env.has_cargo_toml then 15 else 0) + (if env.has_go_mod then 15 else 0)
      let score1 : Int := if env.has_lock_files then score0 + 20 else score0
      let score2 : Int := if env.has_security_config then score1 + 10 else score1
      { score := min 100 score2,
        has_package_json := env.has_package_json,
        has_requirements_txt := env.has_requirements_txt,
        has_pipfile := env.has_pipfile,
        has_setup_py := env.has_setup_py,
        has_cargo_toml := env.has_cargo_toml,
        has_go_mod := env.has_go_mod,
        has_lockfiles := env.has_lock_files,
        has_security_config := env.has_security_config,
        error := none }

/- ----------------------------------------------------------------------
Security analysis (`RepositoryAnalyzer.analyze_security`, lines 453-507)
---------------------------------------------------------------------- -/

/-- Filesystem facts `analyze_security` observes: existence of
`SECURITY.md` and `.github/SECURITY.md`, existence of
`.github/workflows`, the raw contents of each `*.yml`/`*.yaml` workflow
file (`none` models a file whose `open`/`read` raised, which the loop
skips via `continue`), and a possible exception raised inside the outer
`try` block. -/
structure SecurityEnv where
  hasSecurityMd : Bool
  hasGithubSecurityMd : Bool
  workflowDirExists : Bool
  workflows : List (Option String)
  exn : Option String
deriving DecidableEq

/-- The `results` dict built by `analyze_security`. -/
structure SecurityResult where
  score : Int
  has_security_md : Bool
  has_github_security_policy : Bool
  has_dependabot_config : Bool
  has_codeql_config : Bool
  error : Option String
deriving DecidableEq

/-- Lines 483-497: the per-workflow-file loop.  The accumulator carries
`(score, has_dependabot_config, has_codeql_config)`; each readable file
whose lowercased content holds a dependabot keyword adds 15, and each
whose content holds a codeql keyword adds another 15 — the bonus is added
again for every matching file. -/
def security_workflow_step (acc : Int × Bool × Bool) (wf : Option String) :
    Int × Bool × Bool :=
  match wf with
  | none => acc
  | some content =>
      let c := strLower content
      let acc1 :=
        if containsSub c ("dependabot") || containsSub c ("dependabot config") then
          (acc.1 + 15, true, acc.2.2)
        else acc
      if containsSub c ("codeql") || containsSub c ("security-events") then
        (acc1.1 + 15, acc1.2.1, true)
      else acc1

/-- `RepositoryAnalyzer.analyze_security` (lines 453-507): 20 points per
security policy file, the workflow loop above, then a baseline of 30 when
the accumulated score is still 0; the exception path scores 10. -/
def analyze_security (env : SecurityEnv) : SecurityResult :=
  match env.exn with
  | some msg =>
      { score := 10, has_security_md := false, has_github_security_policy := false,
        has_dependabot_config := false, has_codeql_config := false, error := some msg }
  | none =>
      let score0 : Int :=
        (if env.hasSecurityMd then 20 else 0) + (if env.hasGithubSecurityMd then 20 else 0)
      let loopRes : Int × Bool × Bool :=
        if env.workflowDirExists then
          env.workflows.foldl security_workflow_step (score0, false, false)
        else (score0, false, false)
      let finalScore : Int := if loopRes.1 = 0 then 30 else loopRes.1
      { score := finalScore,
        has_security_md := env.hasSecurityMd,
        has_github_security_policy := env.hasGithubSecurityMd,
        has_dependabot_config := loopRes.2.1,
        has_codeql_config := loopRes.2.2,
        error := none }

/- ----------------------------------------------------------------------
Aggregate scores (`RepositoryAnalyzer._calculate_aggregate_scores`,
lines 556-585)
---------------------------------------------------------------------- -/

/-- Line 564: flake8's weight, `0.4 if flake8_score > 0 else 0`
(the Python float `0.4` is the rational `2/5`). -/
def flake8_weight (score : Int) : ℚ :=
  if 0 < score then 2/5 else 0

/-- Line 565: ESLint's weight, `0.4 if eslint_score > 0 else 0`. -/
def eslint_weight (score : Int) : ℚ :=
  if 0 < score then 2/5 else 0

/-- Line 566: complexity's weight, `0.2 if complexity_score > 0 else 0`. -/
def complexity_weight (score : Int) : ℚ :=
  if 0 < score then 1/5 else 0

/-- The `aggregate` entry added to `analysis_results` (lines 580-585). -/
structure AggregateScores where
  code_quality_score : ℚ
  documentation_score : Int
  security_score : Int
  dependency_score : Int
deriving DecidableEq

/-- Lines 563-577: the weighted code-quality mean.  `total_weight` sums
the three weights; when it is positive the weighted mean is taken, else
the declared default 50 is used. -/
def aggregate_code_score (flake8_score eslint_score complexity_score : Int) : ℚ :=
  let wf := flake8_weight flake8_score
  let we := eslint_weight eslint_score
  let wc := complexity_weight complexity_score
  let total_weight := wf + we + wc
  if 0 < total_weight then
    ((flake8_score : ℚ) * wf + (eslint_score : ℚ) * we + (complexity_score : ℚ) * wc)
      / total_weight
  else 50

/-- `RepositoryAnalyzer._calculate_aggregate_scores` (lines 556-585):
weighted mean of the flake8/ESLint/complexity scores with zero weight for
a zero score, falling back to the default 50 when the total weight is 0;
the documentation/security/dependency category scores are copied directly
from the corresponding analyzer's `score` entry. -/
def calculate_aggregate_scores (flake8 : Flake8Result) (eslint : EslintResult)
    (radon : RadonResult) (doc : DocResult) (deps : DepsResult)
    (security : SecurityResult) : AggregateScores :=
  { code_quality_score := round2 (aggregate_code_score flake8.score eslint.score radon.complexity_score),
    documentation_score := doc.score,
    security_score := security.score,
    dependency_score := deps.score }

/- ----------------------------------------------------------------------
Workspace lifecycle (`RepositoryAnalyzer.clone_repository`, lines 53-77,
and `RepositoryAnalyzer.run_analysis`, lines 509-554)
---------------------------------------------------------------------- -/

/-- Outcome of the `git clone` subprocess (lines 59-65) once
`tempfile.mkdtemp` has created the temporary directory: success, a
`subprocess.CalledProcessError`, a `subprocess.TimeoutExpired`, or any
other exception. -/
inductive CloneOutcome where
  | ok
  | processError (msg : String)
  | timedOut
  | exn (msg : String)
deriving DecidableEq

/-- External facts `clone_repository` depends on: whether
`tempfile.mkdtemp` itself succeeds (creating a directory on disk), and
the outcome of the subsequent `git clone` when it does. -/
structure CloneEnv where
  mkdtempOk : Bool
  outcome : CloneOutcome
deriving DecidableEq

/-- What `clone_repository` produces: the value it returns (`some` path
on success, `none` on every failure path), whether a temporary directory
now exists on disk, and the entries appended to
`analysis_results['errors']`. -/
structure CloneResult where
  path : Option String
  tempDirCreated : Bool
  errors : List String
deriving DecidableEq

/-- `RepositoryAnalyzer.clone_repository` (lines 53-77).  When `mkdtemp`
fails no directory exists; when `mkdtemp` succeeds but `git clone` fails,
the function returns `None` with the directory still on disk. -/
def clone_repository (env : CloneEnv) : CloneResult :=
  if env.mkdtempOk = false then
    { path := none, tempDirCreated := false,
      errors := ["Unexpected error during clone: mkdtemp failed"] }
  else
    match env.outcome with
    | CloneOutcome.ok =>
        { path := some ("tmpdir"), tempDirCreated := true, errors := [] }
    | CloneOutcome.processError msg =>
        { path := none, tempDirCreated := true,
          errors := ["Failed to clone repository: " ++ msg] }
    | CloneOutcome.timedOut =>
        { path := none, tempDirCreated := true,
          errors := ["Repository cloning timed out"] }
    | CloneOutcome.exn msg =>
        { path := none, tempDirCreated := true,
          errors := ["Unexpected error during clone: " ++ msg] }

/-- The whole environment of one `run_analysis` call: the repository URL
and timestamp recorded in `analysis_results` (lines 29-42), the clone
environment, each analyzer's environment, and whether the final
`shutil.rmtree` succeeds. -/
structure Env where
  repo_url : String
  timestamp : Nat
  clone : CloneEnv
  flake8 : Flake8Env
  radon : RadonEnv
  eslint : EslintEnv
  doc : DocEnv
  deps : DepsEnv
  security : SecurityEnv
  rmtreeOk : Bool
deriving DecidableEq

/-- The `analysis_results` dict as `run_analysis` returns it.  The
analyzer slots are `Option`s because on the clone-failure path the
corresponding sub-dicts are never filled in (they keep their initial
empty value from `__init__`). -/
structure Report where
  repository : String
  timestamp : Nat
  flake8 : Option Flake8Result
  complexity : Option RadonResult
  eslint : Option EslintResult
  documentation : Option DocResult
  dependencies : Option DepsResult
  security : Option SecurityResult
  aggregate : Option AggregateScores
  errors : List String
  warnings : List String
deriving DecidableEq

/-- What one `run_analysis` call does: the returned report plus the
temporary-directory lifecycle facts (whether `mkdtemp` created a
directory, and whether that directory was removed before returning). -/
structure RunOutput where
  report : Report
  tempDirCreated : Bool
  tempDirRemoved : Bool
deriving DecidableEq

/-- `RepositoryAnalyzer.run_analysis` (lines 509-554).  On clone failure
the initial `analysis_results` (with the clone errors) is returned and
the `finally` block removes nothing because `repo_path` is `None`; on
clone success all six analyzers run, the aggregate is computed, and the
`finally` block removes the directory (appending a warning instead when
`shutil.rmtree` raises).  The `except` branch of the outer `try` is
unreachable in this embedding because every modelled step is total. -/
def run_analysis (env : Env) : RunOutput :=
  let c := clone_repository env.clone
  match c.path with
  | none =>
      { report :=
          { repository := env.repo_url, timestamp := env.timestamp,
            flake8 := none, complexity := none, eslint := none,
            documentation := none, dependencies := none, security := none,
            aggregate := none, errors := c.errors, warnings := [] },
        tempDirCreated := c.tempDirCreated,
        tempDirRemoved := false }
  | some _ =>
      let f := run_flake8_analysis env.flake8
      let r := run_radon_analysis env.radon
      let e := run_eslint_analysis env.eslint
      let d := analyze_documentation env.doc
      let dp := analyze_dependencies env.deps
      let s := analyze_security env.security
      let agg := calculate_aggregate_scores f e r d dp s
      { report :=
          { repository := env.repo_url, timestamp := env.timestamp,
            flake8 := some f, complexity := some r, eslint := some e,
            documentation := some d, dependencies := some dp, security := some s,
            aggregate := some agg, errors := c.errors,
            warnings :=
              if env.rmtreeOk then []
              else ["Failed to cleanup tmpdir: rmtree failed"] },
        tempDirCreated := c.tempDirCreated,
        tempDirRemoved := env.rmtreeOk }

/- ----------------------------------------------------------------------
Entry point (`main`, lines 588-611)
---------------------------------------------------------------------- -/

/-- Line 597: the URL validation,
`'github.com' in args.repo_url or args.repo_url.startswith('https://')`. -/
def valid_repo_url (url : String) : Bool :=
  containsSub url ("github.com") || ("https://").toList.isPrefixOf url.toList

/-- What `main` does: either print an error JSON and call `sys.exit(1)`,
or run the analysis and dump the report (process exits 0). -/
inductive MainResult where
  | usageError
  | success (report : Report)
deriving DecidableEq

/-- `main` (lines 588-611): invalid URLs exit with status 1 before any
acquisition; otherwise the analysis runs and the report is dumped, with
no further exit-status check of any kind. -/
def main_run (url : String) (env : Env) : MainResult :=
  if valid_repo_url url = false then MainResult.usageError
  else MainResult.success (run_analysis env).report

/-- The process exit status implied by `main_run`: `sys.exit(1)` on the
usage-error path, 0 otherwise. -/
def main_exit_code (url : String) (env : Env) : Nat :=
  match main_run url env with
  | MainResult.usageError => 1
  | MainResult.success _ => 0

/- ----------------------------------------------------------------------
Shared concrete environments
---------------------------------------------------------------------- -/

/-- A workspace with none of the dependency marker files. -/
def empty_deps_env : DepsEnv :=
  { has_package_json := false, has_requirements_txt := false, has_pipfile := false,
    has_setup_py := false, has_cargo_toml := false, has_go_mod := false,
    has_lock_files := false, has_security_config := false, exn := none }

/-- A workspace with no security files and no workflow directory. -/
def empty_security_env : SecurityEnv :=
  { hasSecurityMd := false, hasGithubSecurityMd := false, workflowDirExists := false,
    workflows := [], exn := none }

/-- A successfully cloned, completely empty workspace: no Python files,
no JS/TS files, no README, no dependency files, no security files. -/
def baseline_env : Env :=
  { repo_url := ("https://github.com/octocat/empty"), timestamp := 0,
    clone := { mkdtempOk := true, outcome := CloneOutcome.ok },
    flake8 := { hasPythonFiles := false, run := Flake8Run.ok },
    radon := { hasPythonFiles := false, run := RadonRun.ran 0 (some []) },
    eslint := { hasSourceFiles := false, hasEslintConfig := false, run := EslintRun.ran 0 (some []) },
    doc := DocEnv.noReadme,
    deps := empty_deps_env,
    security := empty_security_env,
    rmtreeOk := true }

/- ----------------------------------------------------------------------
Helper lemmas
---------------------------------------------------------------------- -/

/-- Characterisation of `Rat.floor` from its Galois connection. -/
theorem rat_floor_of_bounds (q : ℚ) (z : Int) (h1 : (z : ℚ) ≤ q)
    (h2 : q < (z : ℚ) + 1) : q.floor = z := by
  have hle : z ≤ q.floor := Rat.le_floor.mpr h1
  have hnot : ¬ (z + 1 ≤ q.floor) := by
    intro hcontra
    have hq := Rat.le_floor.mp hcontra
    push_cast at hq
    linarith
  omega

/-- Rounding an integer to two decimals returns it unchanged. -/
theorem round2_intCast (n : Int) : round2 ((n : ℚ)) = (n : ℚ) := by
  unfold round2
  have h : ((n : ℚ) * 100 + 1/2).floor = 100 * n := by
    apply rat_floor_of_bounds
    · push_cast; linarith
    · push_cast; linarith
  rw [h]
  push_cast
  ring

/-- `round2 50 = 50`: the neutral default survives the rounding. -/
theorem round2_fifty : round2 50 = 50 := by
  have h := round2_intCast 50
  push_cast at h
  exact h

/-- `round2` keeps values inside `[0, 100]`. -/
theorem round2_bounds (q : ℚ) (h0 : 0 ≤ q) (h1 : q ≤ 100) :
    0 ≤ round2 q ∧ round2 q ≤ 100 := by
  unfold round2
  have hl : (0 : Int) ≤ (q * 100 + 1/2).floor :=
    Rat.le_floor.mpr (by push_cast; linarith)
  have hu : (q * 100 + 1/2).floor ≤ 10000 := by
    by_contra hcon
    push_neg at hcon
    have hq : ((10001 : Int) : ℚ) ≤ q * 100 + 1/2 := Rat.le_floor.mp (by omega)
    push_cast at hq
    linarith
  constructor
  · apply div_nonneg _ (by norm_num : (0:ℚ) ≤ 100)
    exact_mod_cast hl
  · rw [div_le_iff₀ (by norm_num : (0:ℚ) < 100)]
    calc (((q * 100 + 1/2).floor : Int) : ℚ) ≤ ((10000 : Int) : ℚ) := by exact_mod_cast hu
      _ ≤ 100 * 100 := by norm_num

/-- The flake8 policy on the nonzero-returncode path always lands in
`[30, 80]`: the penalty is capped at 50 below the base of 80. -/
theorem flake8_policy_bounds (i c : Nat) :
    30 ≤ flake8_policy i c ∧ flake8_policy i c ≤ 80 := by
  unfold flake8_policy
  omega

/-- The ESLint policy on the parse-success path always lands in `[20, 80]`. -/
theorem eslint_policy_bounds (t c : Nat) :
    20 ≤ eslint_policy t c ∧ eslint_policy t c ≤ 80 := by
  unfold eslint_policy
  omega

/-- The complexity banding only produces `20`, `40`, `70` or `90`. -/
theorem complexity_band_bounds (avg : ℚ) :
    0 ≤ complexity_band avg ∧ complexity_band avg ≤ 90 := by
  unfold complexity_band
  split_ifs <;> norm_num

/-- Every flake8 result score lies in `[0, 90]`. -/
theorem run_flake8_score_bounds (env : Flake8Env) :
    0 ≤ (run_flake8_analysis env).score ∧ (run_flake8_analysis env).score ≤ 90 := by
  rcases env with ⟨hp, run⟩
  cases hp
  · simp [run_flake8_analysis]
  · cases run with
    | ok => simp [run_flake8_analysis]
    | issues lines =>
        have h := flake8_policy_bounds (count_flake8_issues lines).1 (count_flake8_issues lines).2
        simp only [run_flake8_analysis]
        norm_num
        omega
    | timedOut => simp [run_flake8_analysis]
    | exn m => simp [run_flake8_analysis]

/-- Every ESLint result score lies in `[0, 80]`. -/
theorem run_eslint_score_bounds (env : EslintEnv) :
    0 ≤ (run_eslint_analysis env).score ∧ (run_eslint_analysis env).score ≤ 80 := by
  rcases env with ⟨src, cfg, run⟩
  cases src
  · simp [run_eslint_analysis]
  · cases cfg
    · simp [run_eslint_analysis]
    · cases run with
      | ran rc parsed =>
          by_cases hrc : rc = 0 ∨ rc = 1
          · cases parsed with
            | none => simp [run_eslint_analysis, hrc]
            | some files =>
                simp [run_eslint_analysis, hrc]
                unfold eslint_policy
                omega
          · cases parsed with
            | none => simp [run_eslint_analysis, hrc]
            | some files => simp [run_eslint_analysis, hrc]
      | timedOut => simp [run_eslint_analysis]
      | exn m => simp [run_eslint_analysis]

/-- Every radon complexity score lies in `[0, 90]`. -/
theorem run_radon_score_bounds (env : RadonEnv) :
    0 ≤ (run_radon_analysis env).complexity_score ∧
      (run_radon_analysis env).complexity_score ≤ 90 := by
  rcases env with ⟨hp, run⟩
  cases hp
  · simp [run_radon_analysis]
  · cases run with
    | ran rc parsed =>
        by_cases hrc : rc = 0
        · cases parsed with
          | none => simp [run_radon_analysis, hrc]
          | some files =>
              by_cases hn : 0 < (files.foldl (fun acc file => acc ++ file) ([] : List Nat)).length
              · simp [run_radon_analysis, hrc, hn]
                unfold complexity_band
                split_ifs <;> norm_num
              · simp [run_radon_analysis, hrc, hn]
        · cases parsed with
          | none => simp [run_radon_analysis, hrc]
          | some files => simp [run_radon_analysis, hrc]
    | timedOut => simp [run_radon_analysis]
    | exn m => simp [run_radon_analysis]

/-- All three analyzer weights are nonnegative. -/
theorem flake8_weight_nonneg (s : Int) : 0 ≤ flake8_weight s := by
  unfold flake8_weight
  split_ifs <;> norm_num

theorem eslint_weight_nonneg (s : Int) : 0 ≤ eslint_weight s := by
  unfold eslint_weight
  split_ifs <;> norm_num

theorem complexity_weight_nonneg (s : Int) : 0 ≤ complexity_weight s := by
  unfold complexity_weight
  split_ifs <;> norm_num

/-- A weighted mean of values in `[0, 100]` with nonnegative weights of
positive total stays in `[0, 100]`. -/
theorem weighted_mean_bounds (f e c wf we wc : ℚ)
    (hf0 : 0 ≤ f) (hf1 : f ≤ 100) (he0 : 0 ≤ e) (he1 : e ≤ 100)
    (hc0 : 0 ≤ c) (hc1 : c ≤ 100)
    (hwf : 0 ≤ wf) (hwe : 0 ≤ we) (hwc : 0 ≤ wc) (ht : 0 < wf + we + wc) :
    0 ≤ (f * wf + e * we + c * wc) / (wf + we + wc) ∧
      (f * wf + e * we + c * wc) / (wf + we + wc) ≤ 100 := by
  constructor
  · apply div_nonneg _ (le_of_lt ht)
    have h1 := mul_nonneg hf0 hwf
    have h2 := mul_nonneg he0 hwe
    have h3 := mul_nonneg hc0 hwc
    linarith
  · rw [div_le_iff₀ ht]
    have h1 := mul_nonneg (sub_nonneg.mpr hf1) hwf
    have h2 := mul_nonneg (sub_nonneg.mpr he1) hwe
    have h3 := mul_nonneg (sub_nonneg.mpr hc1) hwc
    nlinarith

/-- The pre-rounding code-quality mean stays in `[0, 100]` whenever the
three scores do. -/
theorem aggregate_code_score_bounds (fs es cs : Int)
    (hf0 : 0 ≤ fs) (hf1 : fs ≤ 100) (he0 : 0 ≤ es) (he1 : es ≤ 100)
    (hc0 : 0 ≤ cs) (hc1 : cs ≤ 100) :
    0 ≤ aggregate_code_score fs es cs ∧ aggregate_code_score fs es cs ≤ 100 := by
  unfold aggregate_code_score
  by_cases ht : 0 < flake8_weight fs + eslint_weight es + complexity_weight cs
  · simp only [ht, if_true]
    exact weighted_mean_bounds _ _ _ _ _ _
      (by exact_mod_cast hf0) (by exact_mod_cast hf1)
      (by exact_mod_cast he0) (by exact_mod_cast he1)
      (by exact_mod_cast hc0) (by exact_mod_cast hc1)
      (flake8_weight_nonneg fs) (eslint_weight_nonneg es) (complexity_weight_nonneg cs) ht
  · simp only [ht, if_false]
    norm_num

/-- When all three scores are zero every weight is zero and the mean
falls back to the declared default. -/
theorem aggregate_code_score_all_zero : aggregate_code_score 0 0 0 = 50 := by
  unfold aggregate_code_score flake8_weight eslint_weight complexity_weight
  norm_num

/- ----------------------------------------------------------------------
Claim C1 — workspace release on every exit path
---------------------------------------------------------------------- -/

/-- A request whose `mkdtemp` succeeds but whose `git clone` exits
nonzero (`subprocess.CalledProcessError`). -/
def clone_failure_env : Env :=
  { baseline_env with
    clone := { mkdtempOk := true,
               outcome := CloneOutcome.processError ("fatal: repository not found") } }

/-- Claim C1, evaluated at the failing input: when `tempfile.mkdtemp`
creates the temporary directory but `git clone` then fails,
`clone_repository` returns `None` with the directory still on disk, and
`run_analysis` returns without ever removing it — its `finally` block
only removes a non-`None` `repo_path`.  This contradicts the claim that
the directory is recursively removed on every exit path including
acquisition failure after the directory was created. -/
theorem C1_clone_failure_leaks_tempdir :
    (clone_repository clone_failure_env.clone).path = none ∧
    (run_analysis clone_failure_env).tempDirCreated = true ∧
    (run_analysis clone_failure_env).tempDirRemoved = false := by
  refine ⟨by decide, by decide, by decide⟩

/- ----------------------------------------------------------------------
Claim C2 — scores bounded by 100
---------------------------------------------------------------------- -/

/-- A workspace with both security policy files and three workflow files
each holding both a dependabot keyword and a codeql keyword. -/
def security_overflow_env : SecurityEnv :=
  { hasSecurityMd := true, hasGithubSecurityMd := true, workflowDirExists := true,
    workflows := [some ("uses dependabot and codeql"),
      some ("dependabot with codeql scanning"),
      some ("dependabot plus security-events")],
    exn := none }

/-- Claim C2, evaluated at the failing input: `analyze_security` adds the
dependabot and codeql bonuses again for every matching workflow file with
no cap, so the workspace above scores 20 + 20 + 3·(15 + 15) = 130 > 100,
and `_calculate_aggregate_scores` copies that value unchanged into the
security category score.  This contradicts the claim that every
normalized and category score is in [0, 100]. -/
theorem C2_security_score_exceeds_100 :
    (analyze_security security_overflow_env).score = 130 ∧
    100 < (analyze_security security_overflow_env).score ∧
    (calculate_aggregate_scores (run_flake8_analysis baseline_env.flake8)
        (run_eslint_analysis baseline_env.eslint) (run_radon_analysis baseline_env.radon)
        (analyze_documentation baseline_env.doc) (analyze_dependencies baseline_env.deps)
        (analyze_security security_overflow_env)).security_score = 130 := by
  refine ⟨by decide, by decide, by decide⟩

/- ----------------------------------------------------------------------
Claim C3 — composite code-quality score
---------------------------------------------------------------------- -/

/-- An ESLint invocation that exits 1 but whose stdout fails to parse as
JSON (`json.JSONDecodeError`). -/
def eslint_parse_error_env : EslintEnv :=
  { hasSourceFiles := true, hasEslintConfig := true, run := EslintRun.ran 1 none }

/-- Claim C3, refuted at a concrete input: with flake8 and radon both
reporting no signal and ESLint failing with a JSON parse error (an error
result, `details['error']` set), the ESLint adapter is assigned score 30,
so its weight is 2/5 rather than the zero weight the claim requires for
an analyzer that produced an error, and the composite evaluates to 30
instead of the neutral default 50 that zero total weight would give. -/
theorem C3_counterexample_error_weight :
    (run_flake8_analysis baseline_env.flake8).score = 0 ∧
    (run_radon_analysis baseline_env.radon).complexity_score = 0 ∧
    (run_eslint_analysis eslint_parse_error_env).error = some ("Failed to parse ESLint output") ∧
    (run_eslint_analysis eslint_parse_error_env).score = 30 ∧
    eslint_weight (run_eslint_analysis eslint_parse_error_env).score = 2/5 ∧
    (calculate_aggregate_scores (run_flake8_analysis baseline_env.flake8)
        (run_eslint_analysis eslint_parse_error_env) (run_radon_analysis baseline_env.radon)
        (analyze_documentation baseline_env.doc) (analyze_dependencies baseline_env.deps)
        (analyze_security baseline_env.security)).code_quality_score = 30 ∧
    (calculate_aggregate_scores (run_flake8_analysis baseline_env.flake8)
        (run_eslint_analysis eslint_parse_error_env) (run_radon_analysis baseline_env.radon)
        (analyze_documentation baseline_env.doc) (analyze_dependencies baseline_env.deps)
        (analyze_security baseline_env.security)).code_quality_score ≠ 50 := by
  have hf : (run_flake8_analysis baseline_env.flake8).score = 0 := by decide
  have he : (run_eslint_analysis eslint_parse_error_env).score = 30 := by decide
  have hr : (run_radon_analysis baseline_env.radon).complexity_score = 0 := by decide
  have hagg : aggregate_code_score 0 30 0 = 30 := by
    unfold aggregate_code_score flake8_weight eslint_weight complexity_weight
    norm_num
  have h30 : round2 (30 : ℚ) = 30 := by
    have h := round2_intCast 30
    push_cast at h
    exact h
  refine ⟨hf, hr, by decide, he, ?_, ?_, ?_⟩
  · rw [he]
    unfold eslint_weight
    norm_num
  · simp only [calculate_aggregate_scores]
    rw [hf, he, hr, hagg, h30]
  · simp only [calculate_aggregate_scores]
    rw [hf, he, hr, hagg, h30]
    norm_num

/-- Claim C3 (amended): the composite code-quality score is a weighted
mean in which any analyzer whose score is 0 has weight zero — which
covers no-signal and timeout for all three analyzers and flake8 errors,
but not ESLint tool-execution or parse errors, which are scored 20/30
and keep weight 2/5; the composite is always in [0, 100] with no
division by zero; and when all three scores are 0 the composite equals
the declared neutral default 50. -/
theorem C3_amended_code_quality (fe : Flake8Env) (ee : EslintEnv) (re : RadonEnv)
    (de : DocEnv) (pe : DepsEnv) (se : SecurityEnv) :
    (0 ≤ (calculate_aggregate_scores (run_flake8_analysis fe) (run_eslint_analysis ee)
        (run_radon_analysis re) (analyze_documentation de) (analyze_dependencies pe)
        (analyze_security se)).code_quality_score ∧
      (calculate_aggregate_scores (run_flake8_analysis fe) (run_eslint_analysis ee)
        (run_radon_analysis re) (analyze_documentation de) (analyze_dependencies pe)
        (analyze_security se)).code_quality_score ≤ 100) ∧
    ((run_flake8_analysis fe).score = 0 → flake8_weight (run_flake8_analysis fe).score = 0) ∧
    ((run_eslint_analysis ee).score = 0 → eslint_weight (run_eslint_analysis ee).score = 0) ∧
    ((run_radon_analysis re).complexity_score = 0 →
      complexity_weight (run_radon_analysis re).complexity_score = 0) ∧
    (0 < (run_eslint_analysis ee).score → eslint_weight (run_eslint_analysis ee).score = 2/5) ∧
    ((run_flake8_analysis fe).score = 0 ∧ (run_eslint_analysis ee).score = 0 ∧
        (run_radon_analysis re).complexity_score = 0 →
      (calculate_aggregate_scores (run_flake8_analysis fe) (run_eslint_analysis ee)
        (run_radon_analysis re) (analyze_documentation de) (analyze_dependencies pe)
        (analyze_security se)).code_quality_score = 50) := by
  have hf := run_flake8_score_bounds fe
  have he := run_eslint_score_bounds ee
  have hr := run_radon_score_bounds re
  refine ⟨?_, ?_, ?_, ?_, ?_, ?_⟩
  · simp only [calculate_aggregate_scores]
    have hb := aggregate_code_score_bounds (run_flake8_analysis fe).score
      (run_eslint_analysis ee).score (run_radon_analysis re).complexity_score
      hf.1 (by omega) he.1 (by omega) hr.1 (by omega)
    exact round2_bounds _ hb.1 hb.2
  · intro h
    rw [h]
    unfold flake8_weight
    norm_num
  · intro h
    rw [h]
    unfold eslint_weight
    norm_num
  · intro h
    rw [h]
    unfold complexity_weight
    norm_num
  · intro h
    unfold eslint_weight
    rw [if_pos h]
  · rintro ⟨h1, h2, h3⟩
    simp only [calculate_aggregate_scores]
    rw [h1, h2, h3, aggregate_code_score_all_zero, round2_fifty]

/-- Witness for C3 (amended) at a concrete input: an empty workspace has
all three code-quality scores 0, and the composite equals the neutral
default 50. -/
theorem C3_amended_code_quality_witness :
    (calculate_aggregate_scores (run_flake8_analysis baseline_env.flake8)
      (run_eslint_analysis baseline_env.eslint) (run_radon_analysis baseline_env.radon)
      (analyze_documentation baseline_env.doc) (analyze_dependencies baseline_env.deps)
      (analyze_security baseline_env.security)).code_quality_score = 50 :=
  (C3_amended_code_quality baseline_env.flake8 baseline_env.eslint baseline_env.radon
    baseline_env.doc baseline_env.deps baseline_env.security).2.2.2.2.2
    ⟨by decide, by decide, by decide⟩

/- ----------------------------------------------------------------------
Claim C4 — analyzer totality and isolation
---------------------------------------------------------------------- -/

/-- Claim C4: every analyzer returns a result value on every internal
failure mode rather than raising (each embedded analyzer is a total
function of its environment), and when the clone succeeds `run_analysis`
stores each analyzer's result in its own slot of the report — the result
of each analyzer, including a failing one, appears in the final report
regardless of every other analyzer's outcome. -/
theorem C4_analyzer_isolation (env : Env)
    (h1 : env.clone.mkdtempOk = true) (h2 : env.clone.outcome = CloneOutcome.ok) :
    (run_analysis env).report.flake8 = some (run_flake8_analysis env.flake8) ∧
    (run_analysis env).report.complexity = some (run_radon_analysis env.radon) ∧
    (run_analysis env).report.eslint = some (run_eslint_analysis env.eslint) ∧
    (run_analysis env).report.documentation = some (analyze_documentation env.doc) ∧
    (run_analysis env).report.dependencies = some (analyze_dependencies env.deps) ∧
    (run_analysis env).report.security = some (analyze_security env.security) ∧
    (run_analysis env).report.aggregate = some (calculate_aggregate_scores
      (run_flake8_analysis env.flake8) (run_eslint_analysis env.eslint)
      (run_radon_analysis env.radon) (analyze_documentation env.doc)
      (analyze_dependencies env.deps) (analyze_security env.security)) := by
  simp [run_analysis, clone_repository, h1, h2]

/-- A request where ESLint times out while every other analyzer
completes. -/
def isolation_env : Env :=
  { baseline_env with
    flake8 := { hasPythonFiles := true, run := Flake8Run.ok },
    eslint := { hasSourceFiles := true, hasEslintConfig := true, run := EslintRun.timedOut } }

/-- Witness for C4 at a concrete input: ESLint timing out yields a
timeout result that lands in the report next to flake8's untouched
clean-run score of 90. -/
theorem C4_analyzer_isolation_witness :
    (run_eslint_analysis isolation_env.eslint).timedOut = true ∧
    (run_analysis isolation_env).report.eslint =
      some (run_eslint_analysis isolation_env.eslint) ∧
    (run_analysis isolation_env).report.flake8 =
      some (run_flake8_analysis isolation_env.flake8) ∧
    (run_flake8_analysis isolation_env.flake8).score = 90 := by
  refine ⟨by decide, (C4_analyzer_isolation isolation_env rfl rfl).2.2.1,
    (C4_analyzer_isolation isolation_env rfl rfl).1, by decide⟩

/- ----------------------------------------------------------------------
Claim C5 — process exit contract
---------------------------------------------------------------------- -/

/-- On every clone-failure path at least one error message is recorded. -/
theorem clone_failure_errors_nonempty (ce : CloneEnv)
    (h : (clone_repository ce).path = none) : (clone_repository ce).errors ≠ [] := by
  rcases ce with ⟨mk, outc⟩
  cases mk <;> cases outc <;> simp_all [clone_repository]

/-- The report's error list is always exactly what `clone_repository`
recorded (the analyzers append nothing to it in this embedding). -/
theorem run_analysis_errors (env : Env) :
    (run_analysis env).report.errors = (clone_repository env.clone).errors := by
  unfold run_analysis
  rcases h : (clone_repository env.clone).path with _ | p <;> simp [h]

/-- Claim C5, refuted at a concrete input: with a syntactically valid
locator whose clone fails unrecoverably, `main` still exits 0 and dumps
the best-effort report — there is no non-zero exit on acquisition
failure, contradicting the claim that acquisition failure signals hard
failure. -/
theorem C5_counterexample_acquisition_exit :
    valid_repo_url ("https://gitverse.example.org/a/b") = true ∧
    (clone_repository clone_failure_env.clone).path = none ∧
    main_exit_code ("https://gitverse.example.org/a/b") clone_failure_env = 0 ∧
    main_run ("https://gitverse.example.org/a/b") clone_failure_env =
      MainResult.success (run_analysis clone_failure_env).report := by
  refine ⟨by decide, by decide, by decide, by decide⟩

/-- Claim C5 (amended): the process exits non-zero exactly when the
locator fails the URL validation; in every other case — including
unrecoverable acquisition failure and individual analyzer failures — it
exits 0 with a best-effort report, and on acquisition failure that
report carries a non-empty error list. -/
theorem C5_amended_exit_policy (url : String) (env : Env) :
    (main_exit_code url env = 1 ↔ valid_repo_url url = false) ∧
    (valid_repo_url url = true →
      main_run url env = MainResult.success (run_analysis env).report) ∧
    (valid_repo_url url = true → (clone_repository env.clone).path = none →
      main_exit_code url env = 0 ∧ (run_analysis env).report.errors ≠ []) := by
  refine ⟨?_, ?_, ?_⟩
  · unfold main_exit_code main_run
    cases hv : valid_repo_url url <;> simp [hv]
  · intro h
    unfold main_run
    rw [h]
    simp
  · intro hv hc
    constructor
    · unfold main_exit_code main_run
      rw [hv]
      simp
    · rw [run_analysis_errors]
      exact clone_failure_errors_nonempty _ hc

/-- Witness for C5 (amended) at concrete inputs: a valid URL with a
failed clone exits 0 with recorded errors, and an invalid locator exits
1. -/
theorem C5_amended_exit_policy_witness :
    (main_exit_code ("https://gitverse.example.org/a/b") clone_failure_env = 0 ∧
      (run_analysis clone_failure_env).report.errors ≠ []) ∧
    main_exit_code ("not a repository locator") baseline_env = 1 := by
  refine ⟨(C5_amended_exit_policy ("https://gitverse.example.org/a/b")
    clone_failure_env).2.2 (by decide) (by decide), ?_⟩
  exact ((C5_amended_exit_policy ("not a repository locator") baseline_env).1).mpr (by decide)

/- ----------------------------------------------------------------------
Claim C6 — category scores for documentation/dependencies/security
---------------------------------------------------------------------- -/

/-- Claim C6, refuted at a concrete input: when the documentation
analyzer reports no signal (no README found) its score is 0, and the
aggregate documentation category score is that same 0, not the declared
neutral default 50 — no neutral-default substitution happens for the
single-analyzer categories. -/
theorem C6_counterexample_no_neutral_default :
    (analyze_documentation DocEnv.noReadme).message = some ("No README file found") ∧
    (calculate_aggregate_scores (run_flake8_analysis baseline_env.flake8)
        (run_eslint_analysis baseline_env.eslint) (run_radon_analysis baseline_env.radon)
        (analyze_documentation DocEnv.noReadme) (analyze_dependencies baseline_env.deps)
        (analyze_security baseline_env.security)).documentation_score = 0 ∧
    (calculate_aggregate_scores (run_flake8_analysis baseline_env.flake8)
        (run_eslint_analysis baseline_env.eslint) (run_radon_analysis baseline_env.radon)
        (analyze_documentation DocEnv.noReadme) (analyze_dependencies baseline_env.deps)
        (analyze_security baseline_env.security)).documentation_score ≠ 50 := by
  refine ⟨by decide, by decide, by decide⟩

/-- Claim C6 (amended): the aggregate documentation, dependency and
security category scores always equal the corresponding analyzer's score
field unconditionally — there is no neutral-default substitution; a
no-README documentation analysis contributes 0, and an empty security
environment contributes the 30 baseline produced inside the analyzer
itself. -/
theorem C6_amended_direct_category_scores (fe : Flake8Env) (ee : EslintEnv) (re : RadonEnv)
    (de : DocEnv) (pe : DepsEnv) (se : SecurityEnv) :
    (calculate_aggregate_scores (run_flake8_analysis fe) (run_eslint_analysis ee)
        (run_radon_analysis re) (analyze_documentation de) (analyze_dependencies pe)
        (analyze_security se)).documentation_score = (analyze_documentation de).score ∧
    (calculate_aggregate_scores (run_flake8_analysis fe) (run_eslint_analysis ee)
        (run_radon_analysis re) (analyze_documentation de) (analyze_dependencies pe)
        (analyze_security se)).dependency_score = (analyze_dependencies pe).score ∧
    (calculate_aggregate_scores (run_flake8_analysis fe) (run_eslint_analysis ee)
        (run_radon_analysis re) (analyze_documentation de) (analyze_dependencies pe)
        (analyze_security se)).security_score = (analyze_security se).score ∧
    (de = DocEnv.noReadme →
      (calculate_aggregate_scores (run_flake8_analysis fe) (run_eslint_analysis ee)
        (run_radon_analysis re) (analyze_documentation de) (analyze_dependencies pe)
        (analyze_security se)).documentation_score = 0) ∧
    (se = empty_security_env →
      (calculate_aggregate_scores (run_flake8_analysis fe) (run_eslint_analysis ee)
        (run_radon_analysis re) (analyze_documentation de) (analyze_dependencies pe)
        (analyze_security se)).security_score = 30) := by
  refine ⟨rfl, rfl, rfl, ?_, ?_⟩
  · rintro rfl
    simp only [calculate_aggregate_scores]
    decide
  · rintro rfl
    simp only [calculate_aggregate_scores]
    decide

/-- Witness for C6 (amended) at a concrete input: the no-README and
empty-security cases evaluated on the empty workspace. -/
theorem C6_amended_direct_category_scores_witness :
    (calculate_aggregate_scores (run_flake8_analysis baseline_env.flake8)
        (run_eslint_analysis baseline_env.eslint) (run_radon_analysis baseline_env.radon)
        (analyze_documentation DocEnv.noReadme) (analyze_dependencies baseline_env.deps)
        (analyze_security empty_security_env)).documentation_score = 0 ∧
    (calculate_aggregate_scores (run_flake8_analysis baseline_env.flake8)
        (run_eslint_analysis baseline_env.eslint) (run_radon_analysis baseline_env.radon)
        (analyze_documentation DocEnv.noReadme) (analyze_dependencies baseline_env.deps)
        (analyze_security empty_security_env)).security_score = 30 :=
  ⟨(C6_amended_direct_category_scores baseline_env.flake8 baseline_env.eslint
      baseline_env.radon DocEnv.noReadme baseline_env.deps empty_security_env).2.2.2.1 rfl,
   (C6_amended_direct_category_scores baseline_env.flake8 baseline_env.eslint
      baseline_env.radon DocEnv.noReadme baseline_env.deps empty_security_env).2.2.2.2 rfl⟩

/- ----------------------------------------------------------------------
Claim C7 — the empty-workspace scenario
---------------------------------------------------------------------- -/

/-- Claim C7: on a workspace with no Python files, no JS/TS files, no
README, no dependency files and no security files, the lint and
complexity analyzers score 0 (no signal), the documentation score is 0
(its minimum), the dependency score is 0, the security score is the
non-zero baseline 30, and the composite code-quality score equals the
neutral default 50. -/
theorem C7_empty_workspace (fe : Flake8Env) (ee : EslintEnv) (re : RadonEnv)
    (de : DocEnv) (pe : DepsEnv) (se : SecurityEnv)
    (hf : fe.hasPythonFiles = false) (he : ee.hasSourceFiles = false)
    (hr : re.hasPythonFiles = false) (hd : de = DocEnv.noReadme)
    (hp : pe = empty_deps_env) (hs : se = empty_security_env) :
    (run_flake8_analysis fe).score = 0 ∧
    (run_flake8_analysis fe).message = some ("No Python files found") ∧
    (run_eslint_analysis ee).score = 0 ∧
    (run_radon_analysis re).complexity_score = 0 ∧
    (analyze_documentation de).score = 0 ∧
    (analyze_dependencies pe).score = 0 ∧
    (analyze_security se).score = 30 ∧
    (calculate_aggregate_scores (run_flake8_analysis fe) (run_eslint_analysis ee)
        (run_radon_analysis re) (analyze_documentation de) (analyze_dependencies pe)
        (analyze_security se)).code_quality_score = 50 := by
  subst hd hp hs
  have hf0 : (run_flake8_analysis fe).score = 0 := by simp [run_flake8_analysis, hf]
  have hfm : (run_flake8_analysis fe).message = some ("No Python files found") := by
    simp [run_flake8_analysis, hf]
  have he0 : (run_eslint_analysis ee).score = 0 := by simp [run_eslint_analysis, he]
  have hr0 : (run_radon_analysis re).complexity_score = 0 := by
    simp [run_radon_analysis, hr]
  refine ⟨hf0, hfm, he0, hr0, by decide, by decide, by decide, ?_⟩
  simp only [calculate_aggregate_scores]
  rw [hf0, he0, hr0, aggregate_code_score_all_zero, round2_fifty]

/-- Witness for C7 at a concrete input: the empty baseline workspace. -/
theorem C7_empty_workspace_witness :
    (analyze_security baseline_env.security).score = 30 ∧
    (calculate_aggregate_scores (run_flake8_analysis baseline_env.flake8)
        (run_eslint_analysis baseline_env.eslint) (run_radon_analysis baseline_env.radon)
        (analyze_documentation baseline_env.doc) (analyze_dependencies baseline_env.deps)
        (analyze_security baseline_env.security)).code_quality_score = 50 :=
  ⟨(C7_empty_workspace baseline_env.flake8 baseline_env.eslint baseline_env.radon
      baseline_env.doc baseline_env.deps baseline_env.security
      rfl rfl rfl rfl rfl rfl).2.2.2.2.2.2.1,
   (C7_empty_workspace baseline_env.flake8 baseline_env.eslint baseline_env.radon
      baseline_env.doc baseline_env.deps baseline_env.security
      rfl rfl rfl rfl rfl rfl).2.2.2.2.2.2.2⟩

/- ----------------------------------------------------------------------
Claim C8 — README with three sections, one code block, short sentences
---------------------------------------------------------------------- -/

/-- Claim C8: a README with exactly three of the four canonical sections,
one fenced code block and an average sentence length of 12 words gets the
top readability band 90, and its documentation score is the base plus the
section bonuses plus the code-example bonus plus the readability
adjustment of 20, clamped at 100 — which these inputs reach, since every
choice of three sections puts the unclamped sum at 105 or 110. -/
theorem C8_readme_three_sections (f : ReadmeFeatures)
    (hlen : 0 < f.length)
    (h3 : (if f.installation then (1:Nat) else 0) + (if f.usage then 1 else 0)
        + (if f.contributing then 1 else 0) + (if f.license then 1 else 0) = 3)
    (hcode : f.codeExamples = 1)
    (hsent : 1 ≤ f.sentences)
    (hwords : f.words = 12 * f.sentences) :
    (analyze_documentation (DocEnv.readme f)).readability_score = 90 ∧
    (analyze_documentation (DocEnv.readme f)).score = 100 := by
  have havg : avg_sentence_length f.sentences f.words = 12 := by
    unfold avg_sentence_length
    rw [hwords, Nat.max_eq_right hsent]
    have h0 : (f.sentences : ℚ) ≠ 0 := Nat.cast_ne_zero.mpr (by omega)
    push_cast
    field_simp
  have hband : readability_band 12 = 90 := by
    unfold readability_band
    norm_num
  have hne : ¬ (f.length = 0) := by omega
  constructor
  · simp [analyze_documentation, hne, havg, hband]
  · simp only [analyze_documentation, hne, if_false, havg, hband, hcode]
    cases hI : f.installation <;> cases hU : f.usage <;> cases hC : f.contributing <;>
        cases hL : f.license <;>
      simp_all

/-- Witness for C8 at a concrete input: installation + usage +
contributing sections, one code block, 3 sentences of 12 words each. -/
theorem C8_readme_three_sections_witness :
    (analyze_documentation (DocEnv.readme
      { length := 480, installation := true, usage := true, contributing := true,
        license := false, codeExamples := 1, sentences := 3, words := 36 })).readability_score = 90 ∧
    (analyze_documentation (DocEnv.readme
      { length := 480, installation := true, usage := true, contributing := true,
        license := false, codeExamples := 1, sentences := 3, words := 36 })).score = 100 :=
  C8_readme_three_sections
    { length := 480, installation := true, usage := true, contributing := true,
      license := false, codeExamples := 1, sentences := 3, words := 36 }
    (by decide) (by decide) (by decide) (by decide) (by decide)

/- ----------------------------------------------------------------------
Claim C9 — the flake8 scoring policy is total and monotonic
---------------------------------------------------------------------- -/

/-- Claim C9: the flake8 policy is total over its raw-metric domain and
monotonic — raising the issue count or the critical count never raises
the score; it is defined at zero findings (value 80) and saturates at 30
once the raw penalty reaches the cap of 50; and one critical issue
lowers the score at least as much as one generic issue. -/
theorem C9_flake8_policy_monotonicity :
    (∀ i j c : Nat, i ≤ j → flake8_policy j c ≤ flake8_policy i c) ∧
    (∀ i c d : Nat, c ≤ d → flake8_policy i d ≤ flake8_policy i c) ∧
    flake8_policy 0 0 = 80 ∧
    (∀ i c : Nat, 50 ≤ (i : Int) * 2 + (c : Int) * 5 → flake8_policy i c = 30) ∧
    (∀ i c : Nat, flake8_policy i (c + 1) ≤ flake8_policy (i + 1) c) := by
  refine ⟨?_, ?_, ?_, ?_, ?_⟩
  · intro i j c h
    unfold flake8_policy
    omega
  · intro i c d h
    unfold flake8_policy
    omega
  · unfold flake8_policy
    norm_num
  · intro i c h
    unfold flake8_policy
    omega
  · intro i c
    unfold flake8_policy
    omega

/-- Witness for C9 at concrete inputs: more issues never score higher,
more criticals never score higher, 30 issues saturate at 30, and one
critical hurts at least as much as one generic issue. -/
theorem C9_flake8_policy_monotonicity_witness :
    flake8_policy 3 0 ≤ flake8_policy 1 0 ∧
    flake8_policy 2 2 ≤ flake8_policy 2 1 ∧
    flake8_policy 30 0 = 30 ∧
    flake8_policy 1 1 ≤ flake8_policy 2 0 :=
  ⟨C9_flake8_policy_monotonicity.1 1 3 0 (by norm_num),
   C9_flake8_policy_monotonicity.2.1 2 1 2 (by norm_num),
   C9_flake8_policy_monotonicity.2.2.2.1 30 0 (by norm_num),
   C9_flake8_policy_monotonicity.2.2.2.2 1 0⟩

/- ----------------------------------------------------------------------
Claim C10 — range of the flake8 score
---------------------------------------------------------------------- -/

/-- Claim C10: the flake8 score always lies in {0} ∪ [30, 90]; it is 0
exactly when there are no Python files, the tool timed out, or an
exception occurred; a clean run scores exactly 90; and every completed
run with reported issues scores within [30, 80] — never strictly between
0 and 30. -/
theorem C10_flake8_score_range (env : Flake8Env) :
    ((run_flake8_analysis env).score = 0 ∨
      (30 ≤ (run_flake8_analysis env).score ∧ (run_flake8_analysis env).score ≤ 90)) ∧
    ((run_flake8_analysis env).score = 0 ↔
      (env.hasPythonFiles = false ∨ env.run = Flake8Run.timedOut ∨
        ∃ m, env.run = Flake8Run.exn m)) ∧
    (env.hasPythonFiles = true → env.run = Flake8Run.ok →
      (run_flake8_analysis env).score = 90) ∧
    (∀ lines, env.hasPythonFiles = true → env.run = Flake8Run.issues lines →
      30 ≤ (run_flake8_analysis env).score ∧ (run_flake8_analysis env).score ≤ 80) := by
  rcases env with ⟨hp, run⟩
  cases hp
  · cases run <;> simp [run_flake8_analysis]
  · cases run with
    | ok => simp [run_flake8_analysis]
    | issues lines =>
        have h := flake8_policy_bounds (count_flake8_issues lines).1 (count_flake8_issues lines).2
        have hs : (run_flake8_analysis ⟨true, Flake8Run.issues lines⟩).score =
            flake8_policy (count_flake8_issues lines).1 (count_flake8_issues lines).2 := rfl
        refine ⟨Or.inr ⟨by rw [hs]; omega, by rw [hs]; omega⟩, ?_, ?_, ?_⟩
        · rw [hs]
          constructor
          · intro h0
            omega
          · rintro (hc | hc | ⟨m, hc⟩) <;> simp_all
        · intro _ hrun
          simp at hrun
        · intro lines2 _ hrun
          exact ⟨by rw [hs]; omega, by rw [hs]; omega⟩
    | timedOut => simp [run_flake8_analysis]
    | exn m => simp [run_flake8_analysis]

/-- The stderr lines of a flake8 run reporting one critical and one
generic issue. -/
def flake8_issue_env : Flake8Env :=
  { hasPythonFiles := true,
    run := Flake8Run.issues [("E999 syntax error"), ("W291 trailing whitespace")] }

/-- Witness for C10 at concrete inputs: a clean run scores 90, a run
with issues lands in [30, 80], and a no-Python workspace scores 0. -/
theorem C10_flake8_score_range_witness :
    (run_flake8_analysis { hasPythonFiles := true, run := Flake8Run.ok }).score = 90 ∧
    (30 ≤ (run_flake8_analysis flake8_issue_env).score ∧
      (run_flake8_analysis flake8_issue_env).score ≤ 80) ∧
    (run_flake8_analysis { hasPythonFiles := false, run := Flake8Run.ok }).score = 0 := by
  refine ⟨(C10_flake8_score_range { hasPythonFiles := true, run := Flake8Run.ok }).2.2.1 rfl rfl,
    (C10_flake8_score_range flake8_issue_env).2.2.2
      [("E999 syntax error"), ("W291 trailing whitespace")] rfl rfl, ?_⟩
  exact ((C10_flake8_score_range { hasPythonFiles := false, run := Flake8Run.ok }).2.1).mpr
    (Or.inl rfl)

end AnalyzeRepository






